import Mathlib

/-!
Verification of the package-initialization module `matgendb/__init__.py` of
the pymatgen-db repository.

The module body consists of a docstring, three metadata assignments
(`__author__`, `__date__`, `__version__`) and one re-export
(`from .query_engine import QueryEngine`).  We embed the Python module body
as a list of statements and give it an evaluation semantics over a "world"
of sibling modules: evaluating the body threads the world and the module's
own namespace, and an import fails when the named sibling module is absent
(ModuleNotFoundError) or lacks the requested attribute (ImportError).
-/

/-- A runtime value held in a module namespace: a string constant, an
opaque object (such as a class) identified by a tag, or a module object,
as placed in a parent package namespace by the import machinery when a
submodule is loaded. -/
inductive PyValue where
  | str (s : String)
  | obj (id : Nat)
  | module (moduleName : String)
  deriving DecidableEq, Repr

/-- A module namespace: an association list from names to values.  A new
binding is prepended, and lookup returns the most recent binding. -/
abbrev Namespace : Type := List (String × PyValue)

/-- Bind a name in a namespace (most recent binding shadows older ones). -/
def bindNs (ns : Namespace) (n : String) (v : PyValue) : Namespace :=
  (n, v) :: ns

/-- Look up a name in a namespace. -/
def lookupNs : Namespace → String → Option PyValue
  | [], _ => none
  | (k, v) :: rest, n => if k = n then some v else lookupNs rest n

/-- The names bound in a namespace, most recent first. -/
def boundNames (ns : Namespace) : List String :=
  ns.map Prod.fst

/-- The world outside the module being initialized: the sibling modules
available for import, each with its own namespace. -/
abbrev World : Type := List (String × Namespace)

/-- Look up a sibling module in the world. -/
def lookupWorld : World → String → Option Namespace
  | [], _ => none
  | (k, ns) :: rest, m => if k = m then some ns else lookupWorld rest m

/-- Set an attribute of a sibling module, mutating the world. -/
def setWorldAttr (w : World) (m a : String) (v : PyValue) : World :=
  w.map (fun p => if p.1 = m then (p.1, bindNs p.2 a v) else p)

/-- The exceptions module initialization can raise: the target module of a
from-import is absent, or it is present but lacks the requested name. -/
inductive PyError where
  | moduleNotFoundError (moduleName : String)
  | importError (moduleName attrName : String)
  deriving DecidableEq, Repr

/-- Statements of the Python module-body fragment we model: a module
docstring (which the interpreter stores under `__doc__`), an assignment of
a constant, a `from <module> import <name>` re-export, a write to another
module's attribute (mutable global state), and a conditional. -/
inductive Stmt where
  | docstring (s : String)
  | assign (name : String) (v : PyValue)
  | importFrom (moduleName attrName : String)
  | globalSet (moduleName attrName : String) (v : PyValue)
  | ifElse (cond : Bool) (thenBranch elseBranch : Stmt)
  deriving DecidableEq, Repr

/-- Evaluate one statement, threading the world and the module namespace.
This evaluator models the bindings performed by the module code itself
(its STORE_NAME effects).  A from-import raises ModuleNotFoundError when
the sibling module is absent and ImportError when it lacks the requested
attribute; on success it binds the imported name to the very value found
in the sibling's namespace.  The import machinery additionally places the
loaded submodule itself in the parent package's namespace; that machinery
effect is modelled separately by `evalStmtRuntime` below. -/
def evalStmt (w : World) (ns : Namespace) : Stmt → Except PyError (World × Namespace)
  | .docstring s => .ok (w, bindNs ns "__doc__" (.str s))
  | .assign n v => .ok (w, bindNs ns n v)
  | .importFrom m a =>
    match lookupWorld w m with
    | none => .error (.moduleNotFoundError m)
    | some mns =>
      match lookupNs mns a with
      | none => .error (.importError m a)
      | some v => .ok (w, bindNs ns a v)
  | .globalSet m a v => .ok (setWorldAttr w m a v, ns)
  | .ifElse c t e => if c then evalStmt w ns t else evalStmt w ns e

/-- Evaluate a module body in order, stopping at the first exception. -/
def evalStmts (w : World) (ns : Namespace) : List Stmt → Except PyError (World × Namespace)
  | [] => .ok (w, ns)
  | s :: rest =>
    match evalStmt w ns s with
    | .error e => .error e
    | .ok (w2, ns2) => evalStmts w2 ns2 rest

/-- The docstring of `matgendb/__init__.py`. -/
def matgendbDoc : String :=
  "\nPymatgen-db is a database add-on for the Python Materials Genomics (pymatgen)\nmaterials analysis library. It enables the creation of Materials\nProject-style MongoDB databases for management of materials data and\nprovides a clean and intuitive web ui for exploring that data. A query engine\nis also provided to enable the easy translation of MongoDB docs to useful\npymatgen objects for analysis purposes.\n"

/-- The module body of `matgendb/__init__.py`, statement by statement. -/
def matgendbInitStmts : List Stmt :=
  [ .docstring matgendbDoc,
    .assign "__author__" (.str "Shyue Ping Ong, Dan Gunter"),
    .assign "__date__" (.str "Oct 9 2014"),
    .assign "__version__" (.str "0.4.3"),
    .importFrom "query_engine" "QueryEngine" ]

/-- Run the initialization of the `matgendb` package in a given world,
starting from an empty module namespace. -/
def runMatgendbInit (w : World) : Except PyError (World × Namespace) :=
  evalStmts w [] matgendbInitStmts

/-- Import the `matgendb` package: initialization yielding the resulting
module namespace. -/
def importMatgendb (w : World) : Except PyError Namespace :=
  match runMatgendbInit w with
  | .error e => .error e
  | .ok p => .ok p.2

/-- The namespace after the docstring and the three metadata assignments. -/
def metadataNs : Namespace :=
  [ ("__version__", .str "0.4.3"),
    ("__date__", .str "Oct 9 2014"),
    ("__author__", .str "Shyue Ping Ong, Dan Gunter"),
    ("__doc__", .str matgendbDoc) ]

/-- A statement is straight-line when it is not a conditional. -/
def isStraightLine : Stmt → Bool
  | .ifElse _ _ _ => false
  | _ => true

/-- A statement mutates state outside the module exactly when it writes an
attribute of another module. -/
def mutatesOutside : Stmt → Bool
  | .globalSet _ _ _ => true
  | _ => false

/-- A statement is a from-import. -/
def isImportStmt : Stmt → Bool
  | .importFrom _ _ => true
  | _ => false

/-- The names a statement binds in the module namespace. -/
def namesBoundBy : Stmt → List String
  | .docstring _ => ["__doc__"]
  | .assign n _ => [n]
  | .importFrom _ a => [a]
  | .globalSet _ _ _ => []
  | .ifElse _ t e => namesBoundBy t ++ namesBoundBy e

/-- Whether a module body defines `__all__`. -/
def definesDunderAll (stmts : List Stmt) : Bool :=
  stmts.any (fun s => (namesBoundBy s).contains "__all__")

/-- A name takes part in the default star-import surface exactly when it
does not start with an underscore. -/
def isPublicName (n : String) : Bool :=
  match n.data with
  | [] => true
  | c :: _ => !(c == '_')

/-- The default star-import surface of a namespace when `__all__` is not
defined: every bound name not starting with an underscore. -/
def starExports (ns : Namespace) : List String :=
  (boundNames ns).filter isPublicName

/-- Extract the namespace from a successful import, or the empty namespace
from a failed one. -/
def nsOf : Except PyError Namespace → Namespace
  | .ok ns => ns
  | .error _ => []

/-- Evaluate one statement with the full runtime effect of CPython's
machinery of imports: executing a from-import of a sibling submodule loads
the submodule and sets it as an attribute of the parent package; since the
body of `matgendb/__init__.py` initializes the parent package itself, the
statement also binds the submodule's own name (as a module object) in the
namespace being initialized, before binding the imported attribute. -/
def evalStmtRuntime (w : World) (ns : Namespace) : Stmt → Except PyError (World × Namespace)
  | .docstring s => .ok (w, bindNs ns "__doc__" (.str s))
  | .assign n v => .ok (w, bindNs ns n v)
  | .importFrom m a =>
    match lookupWorld w m with
    | none => .error (.moduleNotFoundError m)
    | some mns =>
      match lookupNs mns a with
      | none => .error (.importError m a)
      | some v => .ok (w, bindNs (bindNs ns m (.module m)) a v)
  | .globalSet m a v => .ok (setWorldAttr w m a v, ns)
  | .ifElse c t e => if c then evalStmtRuntime w ns t else evalStmtRuntime w ns e

/-- Evaluate a module body in order with the runtime machinery effect,
stopping at the first exception. -/
def evalStmtsRuntime (w : World) (ns : Namespace) : List Stmt → Except PyError (World × Namespace)
  | [] => .ok (w, ns)
  | s :: rest =>
    match evalStmtRuntime w ns s with
    | .error e => .error e
    | .ok (w2, ns2) => evalStmtsRuntime w2 ns2 rest

/-- Run the initialization of the `matgendb` package with the runtime
machinery effect, starting from an empty module namespace. -/
def runMatgendbRuntime (w : World) : Except PyError (World × Namespace) :=
  evalStmtsRuntime w [] matgendbInitStmts

/-- Import the `matgendb` package, yielding the full runtime namespace
that an importer observes: the code's own bindings together with the
submodule binding placed by the import machinery. -/
def importMatgendbRuntime (w : World) : Except PyError Namespace :=
  match runMatgendbRuntime w with
  | .error e => .error e
  | .ok p => .ok p.2

/-- Master description of the initialization: the four leading statements
always succeed, and the final from-import is decided by the lookups of
`query_engine` in the world and of `QueryEngine` in that module. -/
theorem runMatgendbInit_eq (w : World) :
    runMatgendbInit w =
      match lookupWorld w "query_engine" with
      | none => .error (.moduleNotFoundError "query_engine")
      | some qns =>
        match lookupNs qns "QueryEngine" with
        | none => .error (.importError "query_engine" "QueryEngine")
        | some v => .ok (w, bindNs metadataNs "QueryEngine" v) := by
  cases hq : lookupWorld w "query_engine" with
  | none =>
    simp [runMatgendbInit, matgendbInitStmts, evalStmts, evalStmt, hq]
  | some qns =>
    cases hv : lookupNs qns "QueryEngine" with
    | none =>
      simp [runMatgendbInit, matgendbInitStmts, evalStmts, evalStmt, hq, hv]
    | some v =>
      simp [runMatgendbInit, matgendbInitStmts, evalStmts, evalStmt, hq, hv,
        metadataNs, bindNs]

/-- A concrete world in which the sibling module `query_engine` is present
and exports a `QueryEngine` object. -/
def qeWorld : World :=
  [("query_engine", [("QueryEngine", PyValue.obj 0)])]

/-- Shape of a successful run: the world is unchanged and the namespace is
the metadata bindings plus `QueryEngine` bound to the sibling's value. -/
theorem runMatgendbInit_ok_shape (w : World) (p : World × Namespace)
    (h : runMatgendbInit w = .ok p) :
    ∃ qns v, lookupWorld w "query_engine" = some qns ∧
      lookupNs qns "QueryEngine" = some v ∧
      p = (w, bindNs metadataNs "QueryEngine" v) := by
  rw [runMatgendbInit_eq] at h
  cases hq : lookupWorld w "query_engine" with
  | none => simp only [hq] at h; exact Except.noConfusion h
  | some qns =>
    simp only [hq] at h
    cases hv : lookupNs qns "QueryEngine" with
    | none => simp only [hv] at h; exact Except.noConfusion h
    | some v =>
      simp only [hv] at h
      exact ⟨qns, v, rfl, hv, (Except.ok.inj h).symm⟩

/-- Shape of a successful import of the package. -/
theorem importMatgendb_ok_shape (w : World) (ns : Namespace)
    (h : importMatgendb w = .ok ns) :
    ∃ qns v, lookupWorld w "query_engine" = some qns ∧
      lookupNs qns "QueryEngine" = some v ∧
      ns = bindNs metadataNs "QueryEngine" v := by
  unfold importMatgendb at h
  cases hrun : runMatgendbInit w with
  | error e => rw [hrun] at h; exact Except.noConfusion h
  | ok p =>
    rw [hrun] at h
    obtain ⟨qns, v, hq, hv, hp⟩ := runMatgendbInit_ok_shape w p hrun
    refine ⟨qns, v, hq, hv, ?_⟩
    rw [← Except.ok.inj h, hp]

/-- When the sibling module is present and binds `QueryEngine`, importing
the package succeeds with the expected namespace. -/
theorem importMatgendb_ok_of (w : World) (qns : Namespace) (v : PyValue)
    (hq : lookupWorld w "query_engine" = some qns)
    (hv : lookupNs qns "QueryEngine" = some v) :
    importMatgendb w = .ok (bindNs metadataNs "QueryEngine" v) := by
  unfold importMatgendb
  rw [runMatgendbInit_eq]
  simp only [hq, hv]

/-- The only exceptions initialization can raise are the two exceptions of
the final from-import. -/
theorem runMatgendbInit_error_shape (w : World) (e : PyError)
    (h : runMatgendbInit w = .error e) :
    e = PyError.moduleNotFoundError "query_engine" ∨
      e = PyError.importError "query_engine" "QueryEngine" := by
  rw [runMatgendbInit_eq] at h
  cases hq : lookupWorld w "query_engine" with
  | none => simp only [hq] at h; exact Or.inl (Except.error.inj h).symm
  | some qns =>
    simp only [hq] at h
    cases hv : lookupNs qns "QueryEngine" with
    | none => simp only [hv] at h; exact Or.inr (Except.error.inj h).symm
    | some v => simp only [hv] at h; exact Except.noConfusion h

/-- C1: after the package's initialization module is evaluated, the module
attribute `__version__` is bound and is a string equal to "0.4.3". -/
theorem matgendb_version_eq (w : World) (ns : Namespace)
    (h : importMatgendb w = .ok ns) :
    lookupNs ns "__version__" = some (PyValue.str "0.4.3") := by
  obtain ⟨qns, v, hq, hv, hns⟩ := importMatgendb_ok_shape w ns h
  subst hns
  simp [lookupNs, bindNs, metadataNs]

/-- Witness for C1 at a concrete world providing `query_engine`. -/
theorem matgendb_version_eq_witness :
    lookupNs (bindNs metadataNs "QueryEngine" (PyValue.obj 0)) "__version__" =
      some (PyValue.str "0.4.3") :=
  matgendb_version_eq qeWorld (bindNs metadataNs "QueryEngine" (PyValue.obj 0)) (by rfl)

/-- C2: the package attribute `QueryEngine` is bound to exactly the value
of the `QueryEngine` attribute of the sibling module `query_engine`: the
re-export preserves identity. -/
theorem matgendb_reexport_preserves_value (w : World) (qns : Namespace) (v : PyValue)
    (ns : Namespace) (hq : lookupWorld w "query_engine" = some qns)
    (hv : lookupNs qns "QueryEngine" = some v)
    (h : importMatgendb w = .ok ns) :
    lookupNs ns "QueryEngine" = some v := by
  have hok := importMatgendb_ok_of w qns v hq hv
  have hns : ns = bindNs metadataNs "QueryEngine" v := Except.ok.inj (h.symm.trans hok)
  subst hns
  simp [lookupNs, bindNs]

/-- Witness for C2 at a concrete world providing `query_engine`. -/
theorem matgendb_reexport_preserves_value_witness :
    lookupNs (bindNs metadataNs "QueryEngine" (PyValue.obj 0)) "QueryEngine" =
      some (PyValue.obj 0) :=
  matgendb_reexport_preserves_value qeWorld [("QueryEngine", PyValue.obj 0)]
    (PyValue.obj 0) (bindNs metadataNs "QueryEngine" (PyValue.obj 0))
    (by rfl) (by rfl) (by rfl)

/-- C3 counterexample: in a world with no sibling module `query_engine`,
the package import raises ModuleNotFoundError rather than succeeding, so
the import does not succeed in every environment. -/
theorem matgendb_import_fails_on_empty_world :
    importMatgendb ([] : World) =
      .error (PyError.moduleNotFoundError "query_engine") := rfl

/-- C3 amended: importing the package succeeds and yields an attribute
named `QueryEngine` exactly when the sibling module `query_engine` is
available and itself binds `QueryEngine`. -/
theorem matgendb_import_succeeds_iff (w : World) :
    (∃ ns, importMatgendb w = .ok ns ∧ lookupNs ns "QueryEngine" ≠ none) ↔
      ∃ qns v, lookupWorld w "query_engine" = some qns ∧
        lookupNs qns "QueryEngine" = some v := by
  constructor
  · rintro ⟨ns, h, -⟩
    obtain ⟨qns, v, hq, hv, -⟩ := importMatgendb_ok_shape w ns h
    exact ⟨qns, v, hq, hv⟩
  · rintro ⟨qns, v, hq, hv⟩
    refine ⟨bindNs metadataNs "QueryEngine" v, importMatgendb_ok_of w qns v hq hv, ?_⟩
    simp [lookupNs, bindNs]

/-- Witness for C3 amended at a concrete world providing `query_engine`. -/
theorem matgendb_import_succeeds_iff_witness :
    ∃ qns v, lookupWorld qeWorld "query_engine" = some qns ∧
      lookupNs qns "QueryEngine" = some v :=
  (matgendb_import_succeeds_iff qeWorld).mp
    ⟨bindNs metadataNs "QueryEngine" (PyValue.obj 0), by rfl, by simp [lookupNs, bindNs]⟩

/-- C4: the module body performs exactly one re-export, of `QueryEngine`
from `query_engine`; besides the docstring binding and the three metadata
names, the only name bound in the resulting namespace is `QueryEngine`. -/
theorem matgendb_single_reexport (w : World) (ns : Namespace)
    (h : importMatgendb w = .ok ns) :
    matgendbInitStmts.filter isImportStmt =
      [Stmt.importFrom "query_engine" "QueryEngine"] ∧
    (boundNames ns).filter
        (fun n =>
          !((["__doc__", "__author__", "__date__", "__version__"] : List String).contains n)) =
      ["QueryEngine"] := by
  obtain ⟨qns, v, hq, hv, hns⟩ := importMatgendb_ok_shape w ns h
  subst hns
  exact ⟨by decide, by simp [boundNames, bindNs, metadataNs]⟩

/-- Witness for C4 at a concrete world providing `query_engine`. -/
theorem matgendb_single_reexport_witness :
    matgendbInitStmts.filter isImportStmt =
      [Stmt.importFrom "query_engine" "QueryEngine"] ∧
    (boundNames (bindNs metadataNs "QueryEngine" (PyValue.obj 0))).filter
        (fun n =>
          !((["__doc__", "__author__", "__date__", "__version__"] : List String).contains n)) =
      ["QueryEngine"] :=
  matgendb_single_reexport qeWorld (bindNs metadataNs "QueryEngine" (PyValue.obj 0)) (by rfl)

/-- C5 counterexample: when the sibling module `query_engine` is present
but lacks a `QueryEngine` attribute, the from-import statement in the
package's own body raises ImportError, so the initialization is not free
of error-producing statements. -/
theorem matgendb_init_raises_on_missing_attr :
    importMatgendb [("query_engine", ([] : Namespace))] =
      .error (PyError.importError "query_engine" "QueryEngine") := rfl

/-- C5 amended: the docstring and the three constant assignments can never
raise, and the only exceptions the initialization itself can raise come
from the final from-import statement: ModuleNotFoundError when the sibling
module `query_engine` is absent, ImportError when it lacks `QueryEngine`. -/
theorem matgendb_error_only_from_import (w : World) :
    evalStmts w [] (matgendbInitStmts.take 4) = .ok (w, metadataNs) ∧
    ∀ e, runMatgendbInit w = .error e →
      e = PyError.moduleNotFoundError "query_engine" ∨
        e = PyError.importError "query_engine" "QueryEngine" :=
  ⟨rfl, fun e h => runMatgendbInit_error_shape w e h⟩

/-- Witness for C5 amended at the empty world, where the from-import
raises ModuleNotFoundError. -/
theorem matgendb_error_only_from_import_witness :
    PyError.moduleNotFoundError "query_engine" =
        PyError.moduleNotFoundError "query_engine" ∨
      PyError.moduleNotFoundError "query_engine" =
        PyError.importError "query_engine" "QueryEngine" :=
  (matgendb_error_only_from_import ([] : World)).2
    (PyError.moduleNotFoundError "query_engine") (by rfl)

/-- C6 counterexample: initialization also binds `__doc__` (the module
docstring), a name outside the list `__author__`, `__date__`,
`__version__`, `QueryEngine` that the claim states is exhaustive. -/
theorem matgendb_init_binds_doc :
    "__doc__" ∈ boundNames (nsOf (importMatgendb qeWorld)) ∧
      "__doc__" ∉
        (["__author__", "__date__", "__version__", "QueryEngine"] : List String) := by
  constructor
  · show "__doc__" ∈ boundNames (bindNs metadataNs "QueryEngine" (PyValue.obj 0))
    simp [boundNames, bindNs, metadataNs]
  · decide

/-- C6 amended: importing the package mutates no state outside the module:
no statement is a conditional or writes outside the module, a successful
run leaves the world unchanged, and the namespace binds exactly `__doc__`,
`__author__`, `__date__`, `__version__` and `QueryEngine`. -/
theorem matgendb_frame_and_bindings (w : World) :
    (∀ s ∈ matgendbInitStmts, isStraightLine s = true ∧ mutatesOutside s = false) ∧
    ∀ p, runMatgendbInit w = .ok p → p.1 = w ∧
      boundNames p.2 =
        ["QueryEngine", "__version__", "__date__", "__author__", "__doc__"] := by
  refine ⟨by decide, ?_⟩
  intro p h
  obtain ⟨qns, v, hq, hv, hp⟩ := runMatgendbInit_ok_shape w p h
  subst hp
  exact ⟨rfl, by simp [boundNames, bindNs, metadataNs]⟩

/-- Witness for C6 amended at a concrete world providing `query_engine`. -/
theorem matgendb_frame_and_bindings_witness :
    (qeWorld, bindNs metadataNs "QueryEngine" (PyValue.obj 0)).1 = qeWorld ∧
    boundNames (qeWorld, bindNs metadataNs "QueryEngine" (PyValue.obj 0)).2 =
      ["QueryEngine", "__version__", "__date__", "__author__", "__doc__"] :=
  (matgendb_frame_and_bindings qeWorld).2
    (qeWorld, bindNs metadataNs "QueryEngine" (PyValue.obj 0)) (by rfl)

/-- C7: after initialization, `__author__` is bound to
"Shyue Ping Ong, Dan Gunter" and `__date__` is bound to "Oct 9 2014". -/
theorem matgendb_author_date_eq (w : World) (ns : Namespace)
    (h : importMatgendb w = .ok ns) :
    lookupNs ns "__author__" = some (PyValue.str "Shyue Ping Ong, Dan Gunter") ∧
    lookupNs ns "__date__" = some (PyValue.str "Oct 9 2014") := by
  obtain ⟨qns, v, hq, hv, hns⟩ := importMatgendb_ok_shape w ns h
  subst hns
  constructor <;> simp [lookupNs, bindNs, metadataNs]

/-- Witness for C7 at a concrete world providing `query_engine`. -/
theorem matgendb_author_date_eq_witness :
    lookupNs (bindNs metadataNs "QueryEngine" (PyValue.obj 0)) "__author__" =
        some (PyValue.str "Shyue Ping Ong, Dan Gunter") ∧
    lookupNs (bindNs metadataNs "QueryEngine" (PyValue.obj 0)) "__date__" =
        some (PyValue.str "Oct 9 2014") :=
  matgendb_author_date_eq qeWorld (bindNs metadataNs "QueryEngine" (PyValue.obj 0)) (by rfl)

/-- C8: initialization is deterministic: two evaluations in the same world
yield equal bindings of `__author__`, `__date__`, `__version__` and
`QueryEngine`. -/
theorem matgendb_init_deterministic (w : World) (ns1 ns2 : Namespace)
    (h1 : importMatgendb w = .ok ns1) (h2 : importMatgendb w = .ok ns2) :
    lookupNs ns1 "__author__" = lookupNs ns2 "__author__" ∧
    lookupNs ns1 "__date__" = lookupNs ns2 "__date__" ∧
    lookupNs ns1 "__version__" = lookupNs ns2 "__version__" ∧
    lookupNs ns1 "QueryEngine" = lookupNs ns2 "QueryEngine" := by
  have hns : ns1 = ns2 := Except.ok.inj (h1.symm.trans h2)
  subst hns
  exact ⟨rfl, rfl, rfl, rfl⟩

/-- Witness for C8 at a concrete world providing `query_engine`. -/
theorem matgendb_init_deterministic_witness :
    lookupNs (bindNs metadataNs "QueryEngine" (PyValue.obj 0)) "__author__" =
        lookupNs (bindNs metadataNs "QueryEngine" (PyValue.obj 0)) "__author__" ∧
    lookupNs (bindNs metadataNs "QueryEngine" (PyValue.obj 0)) "__date__" =
        lookupNs (bindNs metadataNs "QueryEngine" (PyValue.obj 0)) "__date__" ∧
    lookupNs (bindNs metadataNs "QueryEngine" (PyValue.obj 0)) "__version__" =
        lookupNs (bindNs metadataNs "QueryEngine" (PyValue.obj 0)) "__version__" ∧
    lookupNs (bindNs metadataNs "QueryEngine" (PyValue.obj 0)) "QueryEngine" =
        lookupNs (bindNs metadataNs "QueryEngine" (PyValue.obj 0)) "QueryEngine" :=
  matgendb_init_deterministic qeWorld
    (bindNs metadataNs "QueryEngine" (PyValue.obj 0))
    (bindNs metadataNs "QueryEngine" (PyValue.obj 0)) (by rfl) (by rfl)

/-- Shape of a successful runtime run: the world is unchanged and the
namespace is the metadata bindings, the machinery's submodule binding of
`query_engine`, and `QueryEngine` bound to the sibling's value. -/
theorem runMatgendbRuntime_eq (w : World) :
    runMatgendbRuntime w =
      match lookupWorld w "query_engine" with
      | none => .error (.moduleNotFoundError "query_engine")
      | some qns =>
        match lookupNs qns "QueryEngine" with
        | none => .error (.importError "query_engine" "QueryEngine")
        | some v =>
          .ok (w, bindNs (bindNs metadataNs "query_engine"
            (PyValue.module "query_engine")) "QueryEngine" v) := by
  cases hq : lookupWorld w "query_engine" with
  | none =>
    simp [runMatgendbRuntime, matgendbInitStmts, evalStmtsRuntime, evalStmtRuntime, hq]
  | some qns =>
    cases hv : lookupNs qns "QueryEngine" with
    | none =>
      simp [runMatgendbRuntime, matgendbInitStmts, evalStmtsRuntime, evalStmtRuntime, hq, hv]
    | some v =>
      simp [runMatgendbRuntime, matgendbInitStmts, evalStmtsRuntime, evalStmtRuntime, hq, hv,
        metadataNs, bindNs]

/-- Successful runtime runs leave the world unchanged and produce the
metadata bindings plus the submodule and attribute bindings. -/
theorem runMatgendbRuntime_ok_shape (w : World) (p : World × Namespace)
    (h : runMatgendbRuntime w = .ok p) :
    ∃ qns v, lookupWorld w "query_engine" = some qns ∧
      lookupNs qns "QueryEngine" = some v ∧
      p = (w, bindNs (bindNs metadataNs "query_engine"
        (PyValue.module "query_engine")) "QueryEngine" v) := by
  rw [runMatgendbRuntime_eq] at h
  cases hq : lookupWorld w "query_engine" with
  | none => simp only [hq] at h; exact Except.noConfusion h
  | some qns =>
    simp only [hq] at h
    cases hv : lookupNs qns "QueryEngine" with
    | none => simp only [hv] at h; exact Except.noConfusion h
    | some v =>
      simp only [hv] at h
      exact ⟨qns, v, rfl, hv, (Except.ok.inj h).symm⟩

/-- Shape of a successful runtime import of the package. -/
theorem importMatgendbRuntime_ok_shape (w : World) (ns : Namespace)
    (h : importMatgendbRuntime w = .ok ns) :
    ∃ qns v, lookupWorld w "query_engine" = some qns ∧
      lookupNs qns "QueryEngine" = some v ∧
      ns = bindNs (bindNs metadataNs "query_engine"
        (PyValue.module "query_engine")) "QueryEngine" v := by
  unfold importMatgendbRuntime at h
  cases hrun : runMatgendbRuntime w with
  | error e => rw [hrun] at h; exact Except.noConfusion h
  | ok p =>
    rw [hrun] at h
    obtain ⟨qns, v, hq, hv, hp⟩ := runMatgendbRuntime_ok_shape w p hrun
    refine ⟨qns, v, hq, hv, ?_⟩
    rw [← Except.ok.inj h, hp]

/-- C9 counterexample: in a world providing `query_engine`, the import
machinery also places the submodule name `query_engine` in the package
namespace, so the default star-import surface has the two names
`QueryEngine` and `query_engine`, not exactly the single name
`QueryEngine`. -/
theorem matgendb_star_surface_two_names :
    starExports (nsOf (importMatgendbRuntime qeWorld)) =
        ["QueryEngine", "query_engine"] ∧
      starExports (nsOf (importMatgendbRuntime qeWorld)) ≠ ["QueryEngine"] := by
  constructor
  · rfl
  · decide

/-- C9 amended: the module body defines no `__all__`, so the star-import
surface is determined by the default rule (all names not starting with an
underscore), which yields exactly the two names `QueryEngine` and
`query_engine`, the latter bound in the package namespace by the import
machinery when the from-import loads the submodule. -/
theorem matgendb_star_export_runtime (w : World) (ns : Namespace)
    (h : importMatgendbRuntime w = .ok ns) :
    definesDunderAll matgendbInitStmts = false ∧
      starExports ns = ["QueryEngine", "query_engine"] := by
  obtain ⟨qns, v, hq, hv, hns⟩ := importMatgendbRuntime_ok_shape w ns h
  subst hns
  exact ⟨by decide, by simp [starExports, boundNames, bindNs, metadataNs, isPublicName]⟩

/-- Witness for C9 amended at a concrete world providing `query_engine`. -/
theorem matgendb_star_export_runtime_witness :
    definesDunderAll matgendbInitStmts = false ∧
    starExports (bindNs (bindNs metadataNs "query_engine"
        (PyValue.module "query_engine")) "QueryEngine" (PyValue.obj 0)) =
      ["QueryEngine", "query_engine"] :=
  matgendb_star_export_runtime qeWorld
    (bindNs (bindNs metadataNs "query_engine" (PyValue.module "query_engine"))
      "QueryEngine" (PyValue.obj 0)) (by rfl)
